import Mathlib

/-!
Verification of `scripts/check-local-status.py`.

The script reads four environment variables, performs one HTTP GET against
the commit-status endpoint, decodes the JSON payload, scans the `statuses`
list for the first entry whose `context` equals the required context, and
decides the exit code and the single output line from that entry.

The embedding below mirrors the Python source:
  * a JSON status entry is a record of optional `context` and `state`
    fields, because `status.get("context")` and `status.get("state")`
    yield `None` when the key is absent;
  * the payload carries an optional `statuses` list, because
    `payload.get("statuses", [])` substitutes `[]` when the key is absent;
  * the environment is a partial map from variable names to values, and
    `os.environ[name]` raises `KeyError` when the name is unbound, which we
    model with `Except`;
  * the network is a function from the built request to the decoded
    payload, so that theorems can quantify over every possible response.
-/

/-- A single element of the `statuses` array: `status.get("context")` and
`status.get("state")` in the source, each `None` when the key is absent. -/
structure StatusEntry where
  context : Option String
  state : Option String
deriving DecidableEq, Repr

/-- The decoded JSON payload: `payload.get("statuses", [])` reads the
optional `statuses` key. -/
structure Payload where
  statuses : Option (List StatusEntry)
deriving DecidableEq, Repr

/-- The observable result of one run: the return value of `main` (the
process exit code) and the lines printed to each stream. -/
structure Outcome where
  exitCode : Nat
  stdoutLines : List String
  stderrLines : List String
deriving DecidableEq, Repr

/-- The outbound HTTP request built by `urllib.request.Request(...)`. -/
structure Request where
  url : String
  headers : List (String × String)
deriving DecidableEq, Repr

/-- The request construction from lines 15-22 of the source. -/
def buildRequest (repo sha token : String) : Request :=
  ⟨("https://api.github.com/repos/") ++ repo ++ ("/commits/") ++ sha ++ ("/status")
  , [ (("Authorization"), ("Bearer ") ++ token)
    , (("Accept"), ("application/vnd.github+json"))
    , (("X-GitHub-Api-Version"), ("2022-11-28")) ]⟩

/-- The scan loop of lines 26-30: `found_state` is the `state` field of the
first entry whose `context` equals `required`, and `None` either when no
entry matches or when the matching entry has no `state` key. -/
def findState (required : String) : List StatusEntry → Option String
  | [] => none
  | s :: rest => if s.context = some required then s.state else findState required rest

/-- A single quote character, used in the mismatch diagnostic. -/
def sQuote : String := String.singleton (Char.ofNat 39)

/-- The success line printed to stdout on line 33. -/
def successMsg (required : String) : String :=
  required ++ (" is success")

/-- The missing-context diagnostic printed to stderr on line 37. -/
def missingMsg (required : String) : String :=
  ("Missing required local status: ") ++ required

/-- The state-mismatch diagnostic printed to stderr on lines 39-42. -/
def stateMsg (required st : String) : String :=
  ("Local status ") ++ required ++ (" is ") ++ sQuote ++ st ++ sQuote ++ (", expected ") ++ sQuote ++ ("success") ++ sQuote

/-- The three-way decision of lines 32-43, as a function of `found_state`:
first `found_state == "success"`, then `found_state is None`, else the
mismatch branch. -/
def checkFound (required : String) (found : Option String) : Outcome :=
  if found = some ("success") then
    ⟨0, [successMsg required], []⟩
  else
    match found with
    | none => ⟨1, [], [missingMsg required]⟩
    | some st => ⟨1, [], [stateMsg required st]⟩

/-- The whole post-fetch logic of `main` (lines 26-43): scan the optional
`statuses` list and decide the outcome. -/
def check (required : String) (p : Payload) : Outcome :=
  checkFound required (findState required (p.statuses.getD []))

/-- The whole of `main` (lines 10-43): the four environment lookups in
source order, each raising `KeyError` when unbound, then the fetch through
the ambient network `net`, then the decision. -/
def mainRun (env : String → Option String) (net : Request → Payload) :
    Except String Outcome :=
  match env ("REPO") with
  | none => Except.error ("KeyError: REPO")
  | some repo =>
    match env ("PR_HEAD_SHA") with
    | none => Except.error ("KeyError: PR_HEAD_SHA")
    | some sha =>
      match env ("GH_TOKEN") with
      | none => Except.error ("KeyError: GH_TOKEN")
      | some token =>
        match env ("REQUIRED_CONTEXT") with
        | none => Except.error ("KeyError: REQUIRED_CONTEXT")
        | some required =>
          Except.ok (check required (net (buildRequest repo sha token)))

/-- When no entry of the list has the required context, the scan ends with
`found_state` still `None`. -/
theorem findState_no_match (required : String) (l : List StatusEntry)
    (h : ∀ s ∈ l, s.context ≠ some required) : findState required l = none := by
  induction l with
  | nil => rfl
  | cons a t ih =>
    simp only [findState]
    rw [if_neg]
    · exact ih fun s hs => h s (List.mem_cons_of_mem a hs)
    · exact fun hc => h a (List.mem_cons_self a t) hc

/-- The scan returns the `state` of the first matching entry: entries before
it do not match, entries after it are never inspected. -/
theorem findState_first (required : String) (l1 : List StatusEntry) (e : StatusEntry)
    (l2 : List StatusEntry) (h1 : ∀ s ∈ l1, s.context ≠ some required)
    (he : e.context = some required) :
    findState required (l1 ++ e :: l2) = e.state := by
  induction l1 with
  | nil =>
    simp only [List.nil_append, findState]
    rw [if_pos he]
  | cons a t ih =>
    simp only [List.cons_append, findState]
    rw [if_neg]
    · exact ih fun s hs => h1 s (List.mem_cons_of_mem a hs)
    · exact fun hc => h1 a (List.mem_cons_self a t) hc

/-- The decision branch taken when the scan found no state. -/
theorem checkFound_none (required : String) :
    checkFound required none = ⟨1, [], [missingMsg required]⟩ := rfl

/-- The decision branch taken when the scan found the literal success state. -/
theorem checkFound_success (required : String) :
    checkFound required (some ("success")) = ⟨0, [successMsg required], []⟩ := rfl

/-- The decision branch taken when the scan found some other state. -/
theorem checkFound_mismatch (required st : String) (hne : st ≠ ("success")) :
    checkFound required (some st) = ⟨1, [], [stateMsg required st]⟩ := by
  unfold checkFound
  rw [if_neg]
  exact fun hc => hne (Option.some.injEq st ("success") ▸ hc)

/-- String concatenation is associative; proved through the underlying
character lists. -/
theorem strAppendAssoc (a b c : String) : a ++ b ++ c = a ++ (b ++ c) := by
  rcases a with ⟨la⟩
  rcases b with ⟨lb⟩
  rcases c with ⟨lc⟩
  exact congrArg String.mk (List.append_assoc la lb lc)

/-- Claim C1, as frozen, is false on the code: a payload may contain an
entry with the required context and the success state and yet the checker
exits 1, because an earlier entry with the same context and a different
state wins. Concretely, with REQUIRED_CONTEXT set to ci/build and the
statuses array holding a pending ci/build entry followed by a success
ci/build entry, the second entry satisfies the claim premise, but the
checker exits 1 and writes to stderr only. -/
theorem c1_counterexample :
    (∃ s ∈ [(⟨some ("ci/build"), some ("pending")⟩ : StatusEntry),
            ⟨some ("ci/build"), some ("success")⟩],
        s.context = some ("ci/build") ∧ s.state = some ("success")) ∧
    check ("ci/build")
        ⟨some [⟨some ("ci/build"), some ("pending")⟩, ⟨some ("ci/build"), some ("success")⟩]⟩
      = ⟨1, [], [stateMsg ("ci/build") ("pending")]⟩ := by
  constructor
  · exact ⟨⟨some ("ci/build"), some ("success")⟩, by decide, by decide⟩
  · decide

/-- Claim C1, amended to first-match semantics: whenever the FIRST entry of
the statuses array whose context equals REQUIRED_CONTEXT has state equal to
the literal success string, the checker exits 0 and writes exactly the
single success line to standard output and nothing to standard error. -/
theorem c1_first_match_success (required : String) (l1 l2 : List StatusEntry)
    (e : StatusEntry) (h1 : ∀ s ∈ l1, s.context ≠ some required)
    (he : e.context = some required) (hs : e.state = some ("success")) :
    check required ⟨some (l1 ++ e :: l2)⟩ = ⟨0, [successMsg required], []⟩ := by
  show checkFound required (findState required (l1 ++ e :: l2)) = _
  rw [findState_first required l1 e l2 h1 he, hs]
  exact checkFound_success required

/-- Witness for the amended C1 at a concrete payload. -/
theorem c1_witness :
    check ("ci/build") ⟨some ([] ++ (⟨some ("ci/build"), some ("success")⟩ : StatusEntry) :: [])⟩
      = ⟨0, [successMsg ("ci/build")], []⟩ :=
  c1_first_match_success ("ci/build") [] [] ⟨some ("ci/build"), some ("success")⟩
    (by decide) rfl rfl

/-- Claim C2: when no entry of the statuses array has the required context,
including when the statuses key is absent (modelled by `none`) or the list
is empty, the checker exits 1 and writes exactly the missing-status
diagnostic to standard error and nothing to standard output. -/
theorem c2_no_match_missing (required : String) (p : Payload)
    (h : ∀ s ∈ p.statuses.getD [], s.context ≠ some required) :
    check required p = ⟨1, [], [missingMsg required]⟩ := by
  show checkFound required (findState required (p.statuses.getD [])) = _
  rw [findState_no_match required _ h]
  exact checkFound_none required

/-- Witness for C2 at a payload whose statuses key is absent. -/
theorem c2_witness :
    check ("ci/build") ⟨none⟩ = ⟨1, [], [missingMsg ("ci/build")]⟩ :=
  c2_no_match_missing ("ci/build") ⟨none⟩ (by decide)

/-- Claim C3, as frozen, is false on the code: a payload may contain an
entry with the required context and a non-success state and yet the checker
exits 0, because an earlier entry with the same context and the success
state wins. Concretely, with the statuses array holding a success ci/build
entry followed by a failure ci/build entry, the second entry satisfies the
claim premise, but the checker exits 0 and writes the success line. -/
theorem c3_counterexample :
    (∃ s ∈ [(⟨some ("ci/build"), some ("success")⟩ : StatusEntry),
            ⟨some ("ci/build"), some ("failure")⟩],
        s.context = some ("ci/build") ∧ s.state = some ("failure")) ∧
    ("failure") ≠ ("success") ∧
    check ("ci/build")
        ⟨some [⟨some ("ci/build"), some ("success")⟩, ⟨some ("ci/build"), some ("failure")⟩]⟩
      = ⟨0, [successMsg ("ci/build")], []⟩ := by
  refine ⟨⟨⟨some ("ci/build"), some ("failure")⟩, by decide, by decide⟩, by decide, by decide⟩

/-- Claim C3, amended to first-match semantics: whenever the FIRST entry of
the statuses array whose context equals REQUIRED_CONTEXT has a state other
than the literal success string, the checker exits 1, writes nothing to
standard output, and the single standard-error line contains that literal
state value as a substring. -/
theorem c3_first_match_mismatch (required st : String) (l1 l2 : List StatusEntry)
    (e : StatusEntry) (h1 : ∀ s ∈ l1, s.context ≠ some required)
    (he : e.context = some required) (hs : e.state = some st)
    (hne : st ≠ ("success")) :
    check required ⟨some (l1 ++ e :: l2)⟩ = ⟨1, [], [stateMsg required st]⟩ ∧
    ∃ pre post, stateMsg required st = pre ++ st ++ post := by
  constructor
  · show checkFound required (findState required (l1 ++ e :: l2)) = _
    rw [findState_first required l1 e l2 h1 he, hs]
    exact checkFound_mismatch required st hne
  · refine ⟨("Local status ") ++ required ++ (" is ") ++ sQuote,
      sQuote ++ (", expected ") ++ sQuote ++ ("success") ++ sQuote, ?_⟩
    unfold stateMsg
    simp only [strAppendAssoc]

/-- Witness for the amended C3 at a concrete payload with a pending state. -/
theorem c3_witness :
    check ("ci/lint") ⟨some ([] ++ (⟨some ("ci/lint"), some ("pending")⟩ : StatusEntry) :: [])⟩
      = ⟨1, [], [stateMsg ("ci/lint") ("pending")]⟩ ∧
    ∃ pre post, stateMsg ("ci/lint") ("pending") = pre ++ ("pending") ++ post :=
  c3_first_match_mismatch ("ci/lint") ("pending") [] [] ⟨some ("ci/lint"), some ("pending")⟩
    (by decide) rfl rfl (by decide)

/-- Claim C4: when the statuses array contains several entries with the
required context, the earliest one determines the whole outcome; every
entry after the first match, same context or not, is ignored. The checker
behaves exactly as if the first matching entry were the only entry. -/
theorem c4_first_match_wins (required : String) (l1 l2 : List StatusEntry)
    (e : StatusEntry) (h1 : ∀ s ∈ l1, s.context ≠ some required)
    (he : e.context = some required) :
    check required ⟨some (l1 ++ e :: l2)⟩ = check required ⟨some [e]⟩ := by
  have h2 : findState required [e] = e.state := by
    show (if e.context = some required then e.state else findState required []) = e.state
    rw [if_pos he]
  show checkFound required (findState required (l1 ++ e :: l2))
      = checkFound required (findState required [e])
  rw [findState_first required l1 e l2 h1 he, h2]

/-- Witness for C4: a pending entry followed by a success entry with the
same context yields the same outcome as the pending entry alone. -/
theorem c4_witness :
    check ("ci/build")
        ⟨some ([] ++ (⟨some ("ci/build"), some ("pending")⟩ : StatusEntry)
          :: [⟨some ("ci/build"), some ("success")⟩])⟩
      = check ("ci/build") ⟨some [⟨some ("ci/build"), some ("pending")⟩]⟩ :=
  c4_first_match_wins ("ci/build") [] [⟨some ("ci/build"), some ("success")⟩]
    ⟨some ("ci/build"), some ("pending")⟩ (by decide) rfl

/-- Claim C5: context matching is exact-string and case-sensitive. An entry
whose context agrees with REQUIRED_CONTEXT up to letter case but is not
equal to it is not a match: the checker behaves exactly as if the entry
were removed from the array, whatever its state. -/
theorem c5_context_case_sensitive (required c : String) (st : Option String)
    (rest : List StatusEntry)
    (hcase : c.data.map Char.toLower = required.data.map Char.toLower)
    (hne : c ≠ required) :
    check required ⟨some ((⟨some c, st⟩ : StatusEntry) :: rest)⟩
      = check required ⟨some rest⟩ := by
  show checkFound required (if some c = some required then st else findState required rest)
      = checkFound required (findState required rest)
  rw [if_neg]
  exact fun hc => hne (Option.some.injEq c required ▸ hc)

/-- Witness for C5: the context CI/Build differs from ci/build only in case
and does not match, so a success state under it leaves the context missing. -/
theorem c5_witness :
    check ("ci/build") ⟨some [(⟨some ("CI/Build"), some ("success")⟩ : StatusEntry)]⟩
      = check ("ci/build") ⟨some []⟩ :=
  c5_context_case_sensitive ("ci/build") ("CI/Build") (some ("success")) []
    (by decide) (by decide)

/-- Claim C6: when any of the four required environment variables is
unbound, the run fails with a KeyError-style error, and the result does not
depend on the network in any way: no request is consulted. -/
theorem c6_missing_env_fatal (env : String → Option String)
    (h : env ("REPO") = none ∨ env ("PR_HEAD_SHA") = none ∨
      env ("GH_TOKEN") = none ∨ env ("REQUIRED_CONTEXT") = none)
    (net1 net2 : Request → Payload) :
    mainRun env net1 = mainRun env net2 ∧
    ∃ msg, mainRun env net1 = Except.error msg := by
  unfold mainRun
  cases hA : env ("REPO") with
  | none => exact ⟨rfl, ⟨_, rfl⟩⟩
  | some repo =>
    cases hB : env ("PR_HEAD_SHA") with
    | none => exact ⟨rfl, ⟨_, rfl⟩⟩
    | some sha =>
      cases hC : env ("GH_TOKEN") with
      | none => exact ⟨rfl, ⟨_, rfl⟩⟩
      | some token =>
        cases hD : env ("REQUIRED_CONTEXT") with
        | none => exact ⟨rfl, ⟨_, rfl⟩⟩
        | some required =>
          rw [hA, hB, hC, hD] at h
          rcases h with h | h | h | h <;> exact Option.noConfusion h

/-- Witness for C6 at the empty environment: the error is the same whatever
payload the network would have produced. -/
theorem c6_witness :
    mainRun (fun _ => none) (fun _ => ⟨none⟩)
        = mainRun (fun _ => none) (fun _ => ⟨some []⟩) ∧
    ∃ msg, mainRun (fun _ => none) (fun _ => ⟨none⟩) = Except.error msg :=
  c6_missing_env_fatal (fun _ => none) (Or.inl rfl) (fun _ => ⟨none⟩) (fun _ => ⟨some []⟩)

/-- Claim C7: for every decoded payload the checker produces exit code 0 or
1, writes exactly one line, and writes it to stdout exactly when the exit
code is 0 and to stderr exactly when the exit code is 1. -/
theorem c7_single_line_single_stream (required : String) (p : Payload) :
    ((check required p).exitCode = 0 ∧ (check required p).stdoutLines.length = 1 ∧
      (check required p).stderrLines = []) ∨
    ((check required p).exitCode = 1 ∧ (check required p).stdoutLines = [] ∧
      (check required p).stderrLines.length = 1) := by
  unfold check checkFound
  split
  · exact Or.inl ⟨rfl, rfl, rfl⟩
  · split
    · exact Or.inr ⟨rfl, rfl, rfl⟩
    · exact Or.inr ⟨rfl, rfl, rfl⟩

/-- Claim C8: when the first entry with the required context carries no
state field at all, the scan stores None and the checker takes the
missing-context branch, not the mismatch branch. -/
theorem c8_missing_state_field (required : String) (l1 l2 : List StatusEntry)
    (e : StatusEntry) (h1 : ∀ s ∈ l1, s.context ≠ some required)
    (he : e.context = some required) (hs : e.state = none) :
    check required ⟨some (l1 ++ e :: l2)⟩ = ⟨1, [], [missingMsg required]⟩ := by
  show checkFound required (findState required (l1 ++ e :: l2)) = _
  rw [findState_first required l1 e l2 h1 he, hs]
  exact checkFound_none required

/-- Witness for C8: a matching entry with no state field yields the
missing-status diagnostic. -/
theorem c8_witness :
    check ("ci/build") ⟨some ([] ++ (⟨some ("ci/build"), none⟩ : StatusEntry) :: [])⟩
      = ⟨1, [], [missingMsg ("ci/build")]⟩ :=
  c8_missing_state_field ("ci/build") [] [] ⟨some ("ci/build"), none⟩ (by decide) rfl rfl

/-- Claim C9: the state comparison is exact-string and case-sensitive. Any
first-match state other than the literal success string, including one
differing only in case or trailing whitespace, makes the checker exit 1. -/
theorem c9_state_case_sensitive (required st : String) (l1 l2 : List StatusEntry)
    (e : StatusEntry) (h1 : ∀ s ∈ l1, s.context ≠ some required)
    (he : e.context = some required) (hs : e.state = some st)
    (hne : st ≠ ("success")) :
    (check required ⟨some (l1 ++ e :: l2)⟩).exitCode = 1 := by
  show (checkFound required (findState required (l1 ++ e :: l2))).exitCode = 1
  rw [findState_first required l1 e l2 h1 he, hs, checkFound_mismatch required st hne]

/-- Witness for C9: the capitalised state Success is not success, so the
checker exits 1. -/
theorem c9_witness :
    (check ("ci/build")
        ⟨some ([] ++ (⟨some ("ci/build"), some ("Success")⟩ : StatusEntry) :: [])⟩).exitCode = 1 :=
  c9_state_case_sensitive ("ci/build") ("Success") [] [] ⟨some ("ci/build"), some ("Success")⟩
    (by decide) rfl rfl (by decide)

/-- Claim C10, noninterference: two runs whose environments agree on
REQUIRED_CONTEXT and whose fetched payloads agree on the statuses array
produce identical results, whatever the values of REPO, PR_HEAD_SHA and
GH_TOKEN; the credential therefore cannot influence, or leak into, the
outcome or the output lines. -/
theorem c10_noninterference (e1 e2 : String → Option String)
    (net1 net2 : Request → Payload) (r1 s1 t1 r2 s2 t2 req : String)
    (h1a : e1 ("REPO") = some r1) (h1b : e1 ("PR_HEAD_SHA") = some s1)
    (h1c : e1 ("GH_TOKEN") = some t1) (h1d : e1 ("REQUIRED_CONTEXT") = some req)
    (h2a : e2 ("REPO") = some r2) (h2b : e2 ("PR_HEAD_SHA") = some s2)
    (h2c : e2 ("GH_TOKEN") = some t2) (h2d : e2 ("REQUIRED_CONTEXT") = some req)
    (hpay : (net1 (buildRequest r1 s1 t1)).statuses
      = (net2 (buildRequest r2 s2 t2)).statuses) :
    mainRun e1 net1 = mainRun e2 net2 := by
  have hp : net1 (buildRequest r1 s1 t1) = net2 (buildRequest r2 s2 t2) :=
    congrArg Payload.mk hpay
  unfold mainRun
  simp only [h1a, h1b, h1c, h1d, h2a, h2b, h2c, h2d]
  rw [hp]

/-- Witness for C10: two environments differing in REPO, PR_HEAD_SHA and
GH_TOKEN but agreeing on REQUIRED_CONTEXT give identical runs. -/
theorem c10_witness :
    mainRun (fun k => if k = ("REQUIRED_CONTEXT") then some ("ci/build") else some ("alpha"))
        (fun _ => ⟨some []⟩)
      = mainRun (fun k => if k = ("REQUIRED_CONTEXT") then some ("ci/build") else some ("beta"))
        (fun _ => ⟨some []⟩) :=
  c10_noninterference _ _ _ _ ("alpha") ("alpha") ("alpha") ("beta") ("beta") ("beta")
    ("ci/build") (by decide) (by decide) (by decide) (by decide)
    (by decide) (by decide) (by decide) (by decide) rfl
